import Mathlib

/-!
Verification of ziorufus/wiki-downloader.

Shallow embedding of `src/download.py` and the URL / retry-loop logic of
`src/download-selenium.py`.  The network is modelled as an environment: for
each page ID, a function from the attempt index to the outcome of the
metadata request, and an outcome for the raw-content request.  Sleeps, log
lines and file writes are recorded as explicit events so that timing,
logging and filesystem claims can be stated.
-/

/-- Exceptions raised inside the `try` block of `fetch_page_data`
(`download.py` lines 48-52).  All three are subclasses of
`requests.exceptions.RequestException`: `connectionError` from
`requests.get`, `httpError` from `raise_for_status()`, and
`jsonDecodeError` from `response.json()` (since requests 2.27,
`requests.exceptions.JSONDecodeError` derives from `RequestException`). -/
inductive PyError
  | connectionError
  | httpError
  | jsonDecodeError
deriving DecidableEq, Repr

/-- The `except requests.exceptions.RequestException` clause at
`download.py` line 82 catches every modelled error kind. -/
def isRequestException : PyError → Bool := fun _ => true

/-- One page entry of the decoded JSON dictionary
`json_data["query"]["pages"][str(pageID)]`:  whether the `"missing"` key is
present, the optional `"title"` value, and the optional `"revisions"`
list (modelled by its entries' revision ids). -/
structure PageData where
  missing : Bool
  title : Option String
  revisions : Option (List Nat)
deriving DecidableEq, Repr

/-- The `"pages"` dictionary: string page-id keys to page entries. -/
abbrev Pages := List (String × PageData)

/-- Dictionary membership / lookup: `pages[str(pageID)]`. -/
def lookupPage (pages : Pages) (k : String) : Option PageData :=
  (pages.find? (fun p => p.1 == k)).map (fun p => p.2)

/-- One row of `collected_data` (`download.py` lines 62-66 and 73-77). -/
structure PageRecord where
  pageID : Nat
  title : String
  revisions_count : Nat
deriving DecidableEq, Repr

/-- Observable events: log lines and `time.sleep` calls, in program order. -/
inductive LogEvent
  | sleep (seconds : Nat)
  | errorAttempt (pageID retries maxRetries : Nat)
  | skipAfterRetries (pageID maxRetries : Nat)
  | scraped (pageID : Nat)
  | missingPage (pageID : Nat)
  | ensuredDir (path : String)
  | savedContent (pageID : Nat) (path : String)
  | contentFetchFailed (title : String)
  | noDataWarning
  | savedCsv (filename : String)
  | completed (total : Nat)
deriving DecidableEq, Repr

/-- `title.replace("/", "_")` (`download.py` line 61): the pattern is the
single character `/`, so Python's `str.replace` is exactly a per-character
substitution. -/
def sanitizeTitle (s : String) : String :=
  String.mk (s.data.map (fun ch => if ch = '/' then '_' else ch))

/-- `BASE_URL` (`download.py` line 11). -/
def BASE_URL : String :=
  "https://it.vikidia.org/w/api.php?format=json&action=query&prop=revisions&rvlimit=100&rvprop=ids&pageids="

/-- `url = f"{BASE_URL}{pageID}"` (`download.py` line 42), rebuilt from the
constant base on every iteration. -/
def metadataUrl (pageID : Nat) : String := BASE_URL ++ toString pageID

/-- The metadata request URLs issued by `download.py` over `[s, e)`. -/
def requestUrls (start_page end_page : Nat) : List String :=
  (List.range' start_page (end_page - start_page)).map metadataUrl

/-- `raw_url` (`download.py` line 98), built from the (sanitized) title. -/
def raw_url (title : String) : String :=
  "https://it.vikidia.org/w/index.php?title=" ++ title ++ "&action=raw"

/-- Shard path `<output_folder>/<pageID // 1000>/<pageID>.txt`
(`download.py` lines 106-109). -/
def contentFilePath (output_folder : String) (pageID : Nat) : String :=
  output_folder ++ "/" ++ toString (pageID / 1000) ++ "/" ++ toString pageID ++ ".txt"

/-- Shard directory `<output_folder>/<pageID // 1000>` (`download.py`
line 106), passed to `os.makedirs(..., exist_ok=True)`. -/
def shardDir (output_folder : String) (pageID : Nat) : String :=
  output_folder ++ "/" ++ toString (pageID / 1000)

/-- `save_page_content` (`download.py` lines 94-117).  The raw-content
request outcome is supplied by the environment; on success the shard
directory is ensured and the content written, on a transport failure the
error is logged and nothing is written (there is no retry loop here).
Returns the file writes and the events, in order. -/
def save_page_content (content : Except PyError String) (title : String)
    (pageID : Nat) (output_folder : String) :
    List (String × String) × List LogEvent :=
  match content with
  | .error _ => ([], [LogEvent.contentFetchFailed title])
  | .ok c =>
      ([(contentFilePath output_folder pageID, c)],
       [LogEvent.ensuredDir (shardDir output_folder pageID),
        LogEvent.savedContent pageID (contentFilePath output_folder pageID)])

/-- The body after a successful request and JSON parse (`download.py`
lines 54-78): look the ID up in `pages`; if absent do nothing; if the entry
has a `"missing"` key append a zero-revision empty-title record; otherwise
append a record with the sanitized title and revision count and invoke
`save_page_content`.  Returns (appended records, file writes, events). -/
def handleSuccess (pages : Pages) (pageID : Nat)
    (content : Except PyError String) (output_folder : String) :
    List PageRecord × List (String × String) × List LogEvent :=
  match lookupPage pages (toString pageID) with
  | none => ([], [], [])
  | some page_data =>
    if page_data.missing then
      ([{ pageID := pageID, title := "", revisions_count := 0 }], [],
       [LogEvent.missingPage pageID])
    else
      ([{ pageID := pageID,
          title := sanitizeTitle (page_data.title.getD ""),
          revisions_count := (page_data.revisions.getD []).length }],
       (save_page_content content (sanitizeTitle (page_data.title.getD ""))
          pageID output_folder).1,
       LogEvent.scraped pageID ::
         (save_page_content content (sanitizeTitle (page_data.title.getD ""))
            pageID output_folder).2)

/-- Result of processing one page ID: appended records, file writes,
events, and the number of `requests.get` attempts made. -/
structure LoopOut where
  records : List PageRecord
  writes : List (String × String)
  log : List LogEvent
  attempts : Nat
deriving DecidableEq, Repr

/-- The `while retries < max_retries` loop (`download.py` lines 47-88).
`att i` is the outcome of the `i`-th request attempt for this ID.  The
second numeric argument is the current value of `retries`; the third is
the fuel `maxRetries - retries`, which is positive exactly when the while
condition `retries < max_retries` holds at the loop head.  On an exception
`e`: if `e` is a `RequestException` it is handled (increment `retries`,
log, sleep 2 before a further attempt, or log the skip when retries are
exhausted); otherwise it propagates. -/
def metaRetryLoop (att : Nat → Except PyError Pages)
    (content : Except PyError String) (pageID maxRetries : Nat)
    (output_folder : String) : Nat → Nat → Except PyError LoopOut
  | _, 0 => .ok ⟨[], [], [], 0⟩
  | retries, remaining + 1 =>
    match att retries with
    | .ok pages =>
        .ok ⟨(handleSuccess pages pageID content output_folder).1,
             (handleSuccess pages pageID content output_folder).2.1,
             (handleSuccess pages pageID content output_folder).2.2, 1⟩
    | .error e =>
        if isRequestException e then
          if retries + 1 < maxRetries then
            match metaRetryLoop att content pageID maxRetries output_folder
                (retries + 1) remaining with
            | .ok out =>
                .ok ⟨out.records, out.writes,
                     LogEvent.errorAttempt pageID (retries + 1) maxRetries ::
                       LogEvent.sleep 2 :: out.log,
                     out.attempts + 1⟩
            | .error e2 => .error e2
          else
            .ok ⟨[], [],
                 [LogEvent.errorAttempt pageID (retries + 1) maxRetries,
                  LogEvent.skipAfterRetries pageID maxRetries], 1⟩
        else .error e

/-- One iteration of the outer `for pageID in range(...)` loop
(`download.py` lines 41-88): build the URL, sleep 1 second, run the retry
loop starting from `retries = 0`. -/
def processPage (att : Nat → Except PyError Pages)
    (content : Except PyError String) (pageID maxRetries : Nat)
    (output_folder : String) : Except PyError LoopOut :=
  match metaRetryLoop att content pageID maxRetries output_folder 0 maxRetries with
  | .ok out => .ok ⟨out.records, out.writes, LogEvent.sleep 1 :: out.log, out.attempts⟩
  | .error e => .error e

/-- Concatenation of per-page results in iteration order. -/
def appendOut (a b : LoopOut) : LoopOut :=
  ⟨a.records ++ b.records, a.writes ++ b.writes, a.log ++ b.log,
   a.attempts + b.attempts⟩

/-- The outer loop over a list of page IDs. -/
def runPages (att : Nat → Nat → Except PyError Pages)
    (content : Nat → Except PyError String) (maxRetries : Nat)
    (output_folder : String) : List Nat → Except PyError LoopOut
  | [] => .ok ⟨[], [], [], 0⟩
  | pid :: rest =>
    match processPage (att pid) (content pid) pid maxRetries output_folder with
    | .error e => .error e
    | .ok out =>
      match runPages att content maxRetries output_folder rest with
      | .error e => .error e
      | .ok out2 => .ok (appendOut out out2)

/-- `fetch_page_data` (`download.py` lines 35-91): iterate over the
half-open range `[start_page, end_page)`, then log completion and return
the collected data. -/
def fetch_page_data (att : Nat → Nat → Except PyError Pages)
    (content : Nat → Except PyError String)
    (start_page end_page maxRetries : Nat) (output_folder : String) :
    Except PyError LoopOut :=
  match runPages att content maxRetries output_folder
      (List.range' start_page (end_page - start_page)) with
  | .error e => .error e
  | .ok out =>
      .ok ⟨out.records, out.writes,
           out.log ++ [LogEvent.completed out.records.length], out.attempts⟩

/-- CSV header written by `df.to_csv` for the three-column frame. -/
def csvHeader : String := "pageID,title,revisions_count"

/-- One CSV row for a record. -/
def csvRow (r : PageRecord) : String :=
  toString r.pageID ++ "," ++ r.title ++ "," ++ toString r.revisions_count

/-- Serialized CSV content of the collected data. -/
def csvContent (data : List PageRecord) : String :=
  String.intercalate "\n" (csvHeader :: data.map csvRow)

/-- `save_to_csv` (`download.py` lines 120-128): warn and write nothing
when the data is empty, otherwise write the whole table to `filename`. -/
def save_to_csv (data : List PageRecord) (filename : String) :
    List (String × String) × List LogEvent :=
  if data.isEmpty then ([], [LogEvent.noDataWarning])
  else ([(filename, csvContent data)], [LogEvent.savedCsv filename])

/-- A filesystem as an association list from path to content. -/
abbrev FS := List (String × String)

/-- `open(path, "w")` followed by a full write: overwrites an existing
file at the path, creates it otherwise. -/
def fsWrite : FS → String → String → FS
  | [], p, c => [(p, c)]
  | (q, d) :: rest, p, c =>
      if q = p then (p, c) :: rest else (q, d) :: fsWrite rest p c

/-- Read a file from the modelled filesystem. -/
def fsRead : FS → String → Option String
  | [], _ => none
  | (q, d) :: rest, p => if q = p then some d else fsRead rest p

/-- Apply a list of writes, in order, to a filesystem. -/
def applyWrites (fs : FS) (ws : List (String × String)) : FS :=
  ws.foldl (fun f w => fsWrite f w.1 w.2) fs

/-- The `__main__` block (`download.py` lines 131-146): run the scraper,
then save the CSV.  Returns the final filesystem (starting from `fs0`),
the full event list and the collected records. -/
def mainRun (att : Nat → Nat → Except PyError Pages)
    (content : Nat → Except PyError String)
    (start_page end_page maxRetries : Nat)
    (output_folder csvName : String) (fs0 : FS) :
    Except PyError (FS × List LogEvent × List PageRecord) :=
  match fetch_page_data att content start_page end_page maxRetries output_folder with
  | .error e => .error e
  | .ok out =>
      .ok (applyWrites (applyWrites fs0 out.writes) (save_to_csv out.records csvName).1,
           out.log ++ (save_to_csv out.records csvName).2,
           out.records)

/-- Records of a run result (`[]` on a propagated exception). -/
def runRecordsOf : Except PyError LoopOut → List PageRecord
  | .ok out => out.records
  | .error _ => []

/-- Writes of a run result. -/
def runWritesOf : Except PyError LoopOut → List (String × String)
  | .ok out => out.writes
  | .error _ => []

/-- Whether the run finished without a propagated exception. -/
def runOk : Except PyError LoopOut → Bool
  | .ok _ => true
  | .error _ => false

/-!
Embedding of the differing parts of `src/download-selenium.py`.
-/

/-- `url = f"{url}{pageID}"` (`download-selenium.py` line 57): the loop
REBINDS `url`, so each iteration appends the current page ID to the URL of
the previous iteration rather than to the base URL. -/
def seleniumUrlsAux : String → List Nat → List String
  | _, [] => []
  | url, pid :: rest =>
      (url ++ toString pid) :: seleniumUrlsAux (url ++ toString pid) rest

/-- The metadata request URLs issued by `download-selenium.py` over
`[s, e)`, starting from the language-substituted base URL. -/
def seleniumUrls (base : String) (start_page end_page : Nat) : List String :=
  seleniumUrlsAux base (List.range' start_page (end_page - start_page))

/-- Outcome of one iteration body of the selenium retry loop
(`download-selenium.py` lines 62-113): the JSON extracted from the page
fails to parse (caught by the inner bare `except`, line 73), the driver
request raises a `requests.exceptions.RequestException`, or a parsed
`pages` dictionary is obtained. -/
inductive SelOutcome
  | parseFail
  | requestFail
  | ok (pages : Pages)

/-- How one page ID leaves the selenium retry loop. -/
inductive SelExit
  | broke (pages : Pages)
  | exhausted
deriving Repr

/-- The selenium `while retries < max_retries` loop, run with explicit
fuel (the number of loop iterations allowed).  `att i` is the outcome of
the `i`-th iteration body.  On `parseFail` the code logs and executes
`continue` WITHOUT incrementing `retries` (`download-selenium.py`
lines 73-75), so the loop re-enters with the same counter; `none` means
the fuel ran out with the loop still running. -/
def selRetryLoop (att : Nat → SelOutcome) (maxRetries : Nat) :
    Nat → Nat → Nat → Option SelExit
  | _, _, 0 => none
  | retries, attemptIdx, fuel + 1 =>
    if retries < maxRetries then
      match att attemptIdx with
      | .parseFail => selRetryLoop att maxRetries retries (attemptIdx + 1) fuel
      | .requestFail => selRetryLoop att maxRetries (retries + 1) (attemptIdx + 1) fuel
      | .ok pages => some (SelExit.broke pages)
    else some SelExit.exhausted

/-!
Helper lemmas about the embedding.
-/

lemma handleSuccess_pageID (pages : Pages) (pid : Nat)
    (c : Except PyError String) (folder : String) :
    ∀ r ∈ (handleSuccess pages pid c folder).1, r.pageID = pid := by
  intro r hr
  unfold handleSuccess at hr
  cases hl : lookupPage pages (toString pid) with
  | none => rw [hl] at hr; simp at hr
  | some pd =>
      rw [hl] at hr
      by_cases hm : pd.missing
      · simp [hm] at hr; rw [hr]
      · simp [hm] at hr; rw [hr]

lemma handleSuccess_len (pages : Pages) (pid : Nat)
    (c : Except PyError String) (folder : String) :
    (handleSuccess pages pid c folder).1.length ≤ 1 := by
  unfold handleSuccess
  cases hl : lookupPage pages (toString pid) with
  | none => simp
  | some pd =>
      by_cases hm : pd.missing
      · simp [hm]
      · simp [hm]

lemma metaRetryLoop_ok (att : Nat → Except PyError Pages)
    (c : Except PyError String) (pid m : Nat) (folder : String) :
    ∀ remaining retries, ∃ out,
      metaRetryLoop att c pid m folder retries remaining = Except.ok out ∧
      out.attempts ≤ remaining ∧ out.records.length ≤ 1 ∧
      ∀ r ∈ out.records, r.pageID = pid := by
  intro remaining
  induction remaining with
  | zero =>
      intro retries
      exact ⟨⟨[], [], [], 0⟩, rfl, Nat.le_refl 0, by simp, by simp⟩
  | succ n ih =>
      intro retries
      cases hatt : att retries with
      | ok pages =>
          refine ⟨⟨(handleSuccess pages pid c folder).1,
                   (handleSuccess pages pid c folder).2.1,
                   (handleSuccess pages pid c folder).2.2, 1⟩, ?_, ?_, ?_, ?_⟩
          · simp [metaRetryLoop, hatt]
          · exact Nat.succ_le_succ (Nat.zero_le n)
          · exact handleSuccess_len pages pid c folder
          · exact handleSuccess_pageID pages pid c folder
      | error e =>
          by_cases hlt : retries + 1 < m
          · obtain ⟨out, hout, ha, hl, hp⟩ := ih (retries + 1)
            refine ⟨⟨out.records, out.writes,
                     LogEvent.errorAttempt pid (retries + 1) m ::
                       LogEvent.sleep 2 :: out.log, out.attempts + 1⟩, ?_, ?_, hl, hp⟩
            · simp [metaRetryLoop, hatt, isRequestException, hlt, hout]
            · exact Nat.succ_le_succ ha
          · refine ⟨⟨[], [],
                     [LogEvent.errorAttempt pid (retries + 1) m,
                      LogEvent.skipAfterRetries pid m], 1⟩, ?_, ?_, by simp, by simp⟩
            · simp [metaRetryLoop, hatt, isRequestException, hlt]
            · exact Nat.succ_le_succ (Nat.zero_le n)

lemma processPage_ok (att : Nat → Except PyError Pages)
    (c : Except PyError String) (pid m : Nat) (folder : String) :
    ∃ out, processPage att c pid m folder = Except.ok out ∧
      out.attempts ≤ m ∧ out.records.length ≤ 1 ∧
      ∀ r ∈ out.records, r.pageID = pid := by
  obtain ⟨out, hout, ha, hl, hp⟩ := metaRetryLoop_ok att c pid m folder m 0
  exact ⟨⟨out.records, out.writes, LogEvent.sleep 1 :: out.log, out.attempts⟩,
    by simp [processPage, hout], ha, hl, hp⟩

/-- Records contributed by one page ID. -/
def perPageRecords (att : Nat → Nat → Except PyError Pages)
    (c : Nat → Except PyError String) (m : Nat) (folder : String)
    (pid : Nat) : List PageRecord :=
  runRecordsOf (processPage (att pid) (c pid) pid m folder)

/-- File writes contributed by one page ID. -/
def perPageWrites (att : Nat → Nat → Except PyError Pages)
    (c : Nat → Except PyError String) (m : Nat) (folder : String)
    (pid : Nat) : List (String × String) :=
  runWritesOf (processPage (att pid) (c pid) pid m folder)

lemma perPageRecords_pageID (att : Nat → Nat → Except PyError Pages)
    (c : Nat → Except PyError String) (m : Nat) (folder : String) (pid : Nat) :
    ∀ r ∈ perPageRecords att c m folder pid, r.pageID = pid := by
  obtain ⟨out, hout, _, _, hp⟩ := processPage_ok (att pid) (c pid) pid m folder
  intro r hr
  rw [perPageRecords, hout] at hr
  exact hp r hr

lemma perPageRecords_len (att : Nat → Nat → Except PyError Pages)
    (c : Nat → Except PyError String) (m : Nat) (folder : String) (pid : Nat) :
    (perPageRecords att c m folder pid).length ≤ 1 := by
  obtain ⟨out, hout, _, hl, _⟩ := processPage_ok (att pid) (c pid) pid m folder
  rw [perPageRecords, hout]
  exact hl

lemma runPages_ok (att : Nat → Nat → Except PyError Pages)
    (c : Nat → Except PyError String) (m : Nat) (folder : String) :
    ∀ ids : List Nat, ∃ out,
      runPages att c m folder ids = Except.ok out ∧
      out.records = ids.flatMap (perPageRecords att c m folder) ∧
      out.writes = ids.flatMap (perPageWrites att c m folder) := by
  intro ids
  induction ids with
  | nil => exact ⟨⟨[], [], [], 0⟩, rfl, by simp, by simp⟩
  | cons pid rest ih =>
      obtain ⟨o1, h1, _, _, _⟩ := processPage_ok (att pid) (c pid) pid m folder
      obtain ⟨o2, h2, hr2, hw2⟩ := ih
      refine ⟨appendOut o1 o2, ?_, ?_, ?_⟩
      · simp [runPages, h1, h2]
      · simp [appendOut, hr2, perPageRecords, runRecordsOf, h1]
      · simp [appendOut, hw2, perPageWrites, runWritesOf, h1]

lemma fetch_page_data_ok (att : Nat → Nat → Except PyError Pages)
    (c : Nat → Except PyError String) (s e m : Nat) (folder : String) :
    ∃ out, fetch_page_data att c s e m folder = Except.ok out ∧
      out.records = (List.range' s (e - s)).flatMap (perPageRecords att c m folder) ∧
      out.writes = (List.range' s (e - s)).flatMap (perPageWrites att c m folder) := by
  obtain ⟨out, hout, hr, hw⟩ := runPages_ok att c m folder (List.range' s (e - s))
  exact ⟨⟨out.records, out.writes,
          out.log ++ [LogEvent.completed out.records.length], out.attempts⟩,
    by simp [fetch_page_data, hout], hr, hw⟩

lemma pairwise_of_len_le_one {R : PageRecord → PageRecord → Prop}
    {l : List PageRecord} (h : l.length ≤ 1) : l.Pairwise R := by
  cases l with
  | nil => simp
  | cons a t =>
      cases t with
      | nil => simp
      | cons b t2 => simp at h

lemma pairwise_flatMap_records (f : Nat → List PageRecord)
    (hid : ∀ pid r, r ∈ f pid → r.pageID = pid)
    (hlen : ∀ pid, (f pid).length ≤ 1) :
    ∀ l : List Nat, l.Pairwise (· < ·) →
      ((l.flatMap f).map PageRecord.pageID).Pairwise (· < ·) := by
  intro l
  induction l with
  | nil => intro _; simp
  | cons a rest ih =>
      intro hpw
      rw [List.pairwise_cons] at hpw
      obtain ⟨hab, hrest⟩ := hpw
      rw [List.flatMap_cons, List.map_append, List.pairwise_append]
      refine ⟨?_, ih hrest, ?_⟩
      · exact List.Pairwise.map _ (fun x y h => h) (pairwise_of_len_le_one (hlen a))
      · intro x hx y hy
        obtain ⟨r, hr, hrx⟩ := List.mem_map.1 hx
        obtain ⟨r2, hr2, hry⟩ := List.mem_map.1 hy
        obtain ⟨b, hb, hrb⟩ := List.mem_flatMap.1 hr2
        rw [← hrx, ← hry, hid a r hr, hid b r2 hrb]
        exact hab b hb

/-- Expected event sequence of the retry loop when every attempt raises a
`RequestException`: for each failed attempt, an error log line, with a
constant 2-second sleep between consecutive attempts and a final skip log
after the last one. -/
def failBackoffLog (pid m : Nat) : Nat → Nat → List LogEvent
  | _, 0 => []
  | retries, r + 1 =>
    if retries + 1 < m then
      LogEvent.errorAttempt pid (retries + 1) m :: LogEvent.sleep 2 ::
        failBackoffLog pid m (retries + 1) r
    else
      [LogEvent.errorAttempt pid (retries + 1) m,
       LogEvent.skipAfterRetries pid m]

/-- Number of attempts the retry loop makes when every attempt fails. -/
def failAttempts (m : Nat) : Nat → Nat → Nat
  | _, 0 => 0
  | retries, r + 1 =>
    if retries + 1 < m then failAttempts m (retries + 1) r + 1 else 1

lemma metaRetryLoop_allFail (att : Nat → Except PyError Pages)
    (c : Except PyError String) (pid m : Nat) (folder : String)
    (hfail : ∀ i, ∃ e, att i = Except.error e) :
    ∀ remaining retries,
      metaRetryLoop att c pid m folder retries remaining =
        Except.ok ⟨[], [], failBackoffLog pid m retries remaining,
                   failAttempts m retries remaining⟩ := by
  intro remaining
  induction remaining with
  | zero => intro retries; rfl
  | succ n ih =>
      intro retries
      obtain ⟨e, he⟩ := hfail retries
      by_cases hlt : retries + 1 < m
      · simp [metaRetryLoop, he, isRequestException, hlt, ih (retries + 1),
              failBackoffLog, failAttempts]
      · simp [metaRetryLoop, he, isRequestException, hlt,
              failBackoffLog, failAttempts]

lemma failAttempts_eq (m : Nat) :
    ∀ r k, k + r = m → failAttempts m k r = r := by
  intro r
  induction r with
  | zero => intro k _; rfl
  | succ n ih =>
      intro k hk
      by_cases hlt : k + 1 < m
      · have : k + 1 + n = m := by omega
        simp [failAttempts, hlt, ih (k + 1) this]
      · have hn : n = 0 := by omega
        simp [failAttempts, hlt, hn]

lemma failBackoffLog_count_sleep (pid m : Nat) :
    ∀ r k, k + r = m →
      (failBackoffLog pid m k r).count (LogEvent.sleep 2) = r - 1 := by
  intro r
  induction r with
  | zero => intro k _; rfl
  | succ n ih =>
      intro k hk
      by_cases hlt : k + 1 < m
      · have hinv : k + 1 + n = m := by omega
        have hn : 1 ≤ n := by omega
        rw [failBackoffLog, if_pos hlt]
        simp [List.count_cons, ih (k + 1) hinv]
        omega
      · have hn : n = 0 := by omega
        rw [failBackoffLog, if_neg hlt, hn]
        simp [List.count_cons]

lemma failBackoffLog_skip_mem (pid m : Nat) :
    ∀ r k, k + r = m → 1 ≤ r →
      LogEvent.skipAfterRetries pid m ∈ failBackoffLog pid m k r := by
  intro r
  induction r with
  | zero => intro k _ h; omega
  | succ n ih =>
      intro k hk _
      by_cases hlt : k + 1 < m
      · have hinv : k + 1 + n = m := by omega
        have hn : 1 ≤ n := by omega
        rw [failBackoffLog, if_pos hlt]
        simp [ih (k + 1) hinv hn]
      · rw [failBackoffLog, if_neg hlt]
        simp

lemma failBackoffLog_sleep_const (pid m : Nat) :
    ∀ r k s, LogEvent.sleep s ∈ failBackoffLog pid m k r → s = 2 := by
  intro r
  induction r with
  | zero => intro k s h; simp [failBackoffLog] at h
  | succ n ih =>
      intro k s h
      by_cases hlt : k + 1 < m
      · rw [failBackoffLog, if_pos hlt, List.mem_cons, List.mem_cons] at h
        rcases h with h | h | h
        · exact absurd h (by simp)
        · injection h
        · exact ih (k + 1) s h
      · rw [failBackoffLog, if_neg hlt] at h
        simp at h

lemma metaRetryLoop_noLookup (att : Nat → Except PyError Pages)
    (c : Except PyError String) (pid m : Nat) (folder : String)
    (h : ∀ i pages, att i = Except.ok pages →
      lookupPage pages (toString pid) = none) :
    ∀ remaining retries, ∃ out,
      metaRetryLoop att c pid m folder retries remaining = Except.ok out ∧
      out.records = [] ∧ out.writes = [] := by
  intro remaining
  induction remaining with
  | zero => intro retries; exact ⟨⟨[], [], [], 0⟩, rfl, rfl, rfl⟩
  | succ n ih =>
      intro retries
      cases hatt : att retries with
      | ok pages =>
          refine ⟨⟨(handleSuccess pages pid c folder).1,
                   (handleSuccess pages pid c folder).2.1,
                   (handleSuccess pages pid c folder).2.2, 1⟩, ?_, ?_, ?_⟩
          · simp [metaRetryLoop, hatt]
          · simp [handleSuccess, h retries pages hatt]
          · simp [handleSuccess, h retries pages hatt]
      | error e =>
          by_cases hlt : retries + 1 < m
          · obtain ⟨out, hout, hr, hw⟩ := ih (retries + 1)
            refine ⟨⟨out.records, out.writes,
                     LogEvent.errorAttempt pid (retries + 1) m ::
                       LogEvent.sleep 2 :: out.log, out.attempts + 1⟩, ?_, hr, hw⟩
            simp [metaRetryLoop, hatt, isRequestException, hlt, hout]
          · refine ⟨⟨[], [],
                     [LogEvent.errorAttempt pid (retries + 1) m,
                      LogEvent.skipAfterRetries pid m], 1⟩, ?_, rfl, rfl⟩
            simp [metaRetryLoop, hatt, isRequestException, hlt]

lemma perPage_noLookup (att : Nat → Nat → Except PyError Pages)
    (c : Nat → Except PyError String) (m : Nat) (folder : String) (pid : Nat)
    (h : ∀ i pages, att pid i = Except.ok pages →
      lookupPage pages (toString pid) = none) :
    perPageRecords att c m folder pid = [] ∧
    perPageWrites att c m folder pid = [] := by
  obtain ⟨out, hout, hr, hw⟩ :=
    metaRetryLoop_noLookup (att pid) (c pid) pid m folder h m 0
  constructor
  · simp [perPageRecords, processPage, hout, runRecordsOf, hr]
  · simp [perPageWrites, processPage, hout, runWritesOf, hw]

lemma flatMap_nil_of_forall {α : Type} (f : Nat → List α) :
    ∀ ids : List Nat, (∀ pid ∈ ids, f pid = []) → ids.flatMap f = [] := by
  intro ids
  induction ids with
  | nil => intro _; rfl
  | cons a rest ih =>
      intro h
      rw [List.flatMap_cons, h a (by simp), List.nil_append]
      exact ih (fun pid hp => h pid (by simp [hp]))

lemma fsRead_fsWrite (p c : String) :
    ∀ fs : FS, fsRead (fsWrite fs p c) p = some c := by
  intro fs
  induction fs with
  | nil => simp [fsWrite, fsRead]
  | cons qd rest ih =>
      by_cases hq : qd.1 = p
      · simp [fsWrite, hq, fsRead]
      · simp [fsWrite, hq, fsRead, ih]

lemma sanitizeTitle_len (s : String) :
    (sanitizeTitle s).length = s.length := by
  simp only [sanitizeTitle, String.length, List.length_map]

lemma sanitizeTitle_no_slash (s : String) :
    ∀ ch ∈ (sanitizeTitle s).data, ch ≠ '/' := by
  intro ch hch
  simp only [sanitizeTitle, String.data] at hch
  obtain ⟨x, _, hx⟩ := List.mem_map.1 hch
  by_cases hxs : x = '/'
  · rw [hxs] at hx; simp at hx; rw [← hx]; decide
  · rw [if_neg hxs] at hx; rw [← hx]; exact hxs

lemma sanitizeTitle_id_of_no_slash (s : String)
    (h : ∀ ch ∈ s.data, ch ≠ '/') : sanitizeTitle s = s := by
  have hd : s.data.map (fun ch => if ch = '/' then '_' else ch) =
      s.data.map (fun ch => ch) := by
    apply List.map_congr_left
    intro a ha
    simp [h a ha]
  rw [sanitizeTitle, hd, List.map_id']

/-!
Claim theorems.
-/

/-- C1: for a page ID whose every metadata request fails at the transport
level and `max_retries ≥ 1`, the retry loop makes exactly `max_retries`
request attempts, waits a constant 2-second (non-exponential) backoff
between attempts (`max_retries - 1` waits, every one of 2 seconds), logs
the abandonment, appends no record and writes no file for that ID, and the
records and writes produced for subsequent IDs are unchanged. -/
theorem retry_exhaustion_bounded
    (att : Nat → Except PyError Pages) (c : Except PyError String)
    (pid m : Nat) (folder : String) (hm : 1 ≤ m)
    (hfail : ∀ i, ∃ e, att i = Except.error e) :
    ∃ out, metaRetryLoop att c pid m folder 0 m = Except.ok out ∧
      out.attempts = m ∧ out.records = [] ∧ out.writes = [] ∧
      LogEvent.skipAfterRetries pid m ∈ out.log ∧
      out.log.count (LogEvent.sleep 2) = m - 1 ∧
      (∀ s, LogEvent.sleep s ∈ out.log → s = 2) ∧
      (∀ (attR : Nat → Nat → Except PyError Pages)
         (cR : Nat → Except PyError String) (ids : List Nat),
        attR pid = att →
        runRecordsOf (runPages attR cR m folder (pid :: ids)) =
          runRecordsOf (runPages attR cR m folder ids) ∧
        runWritesOf (runPages attR cR m folder (pid :: ids)) =
          runWritesOf (runPages attR cR m folder ids)) := by
  have hloop := metaRetryLoop_allFail att c pid m folder hfail m 0
  refine ⟨_, hloop, ?_, rfl, rfl, ?_, ?_, ?_, ?_⟩
  · exact failAttempts_eq m m 0 (by omega)
  · exact failBackoffLog_skip_mem pid m m 0 (by omega) hm
  · exact failBackoffLog_count_sleep pid m m 0 (by omega)
  · exact fun s hs => failBackoffLog_sleep_const pid m m 0 s hs
  · intro attR cR ids hatt
    obtain ⟨o2, h2, hr2, hw2⟩ := runPages_ok attR cR m folder ids
    have hloop2 := metaRetryLoop_allFail att (cR pid) pid m folder hfail m 0
    have hpp : processPage (attR pid) (cR pid) pid m folder =
        Except.ok ⟨[], [], LogEvent.sleep 1 :: failBackoffLog pid m 0 m,
                   failAttempts m 0 m⟩ := by
      rw [processPage, hatt, hloop2]
    constructor
    · simp [runPages, hpp, h2, appendOut, runRecordsOf]
    · simp [runPages, hpp, h2, appendOut, runWritesOf]

/-- Witness for C1 at a concrete all-failure environment. -/
theorem retry_exhaustion_bounded_witness :
    ∃ out, metaRetryLoop (fun _ => Except.error PyError.connectionError)
        (Except.error PyError.connectionError) 7 3 "pages" 0 3 = Except.ok out ∧
      out.attempts = 3 ∧ out.records = [] ∧
      LogEvent.skipAfterRetries 7 3 ∈ out.log := by
  obtain ⟨out, h1, h2, h3, h4, h5, h6, h7, h8⟩ :=
    retry_exhaustion_bounded (fun _ => Except.error PyError.connectionError)
      (Except.error PyError.connectionError) 7 3 "pages" (by decide)
      (fun i => ⟨PyError.connectionError, rfl⟩)
  exact ⟨out, h1, h2, h3, h5⟩

/-- Environment for the C2 counterexample: page ID 10 always fails at the
transport level, page ID 11 is found on the first attempt. -/
def attExhaust10 : Nat → Nat → Except PyError Pages :=
  fun pid _ => if pid = 11
    then Except.ok [("11", ⟨false, some "T", some []⟩)]
    else Except.error PyError.connectionError

/-- C2 counterexample: in the run over [10, 12) with `max_retries = 1`
where every request for ID 10 fails, ID 10 is in the range but produces no
record, so not every ID in range produces exactly one record. -/
theorem records_not_one_per_id :
    10 ∈ List.range' 10 (12 - 10) ∧
    (runRecordsOf (fetch_page_data attExhaust10
        (fun _ => Except.ok "body") 10 12 1 "pages")).countP
      (fun r => r.pageID == 10) = 0 ∧
    (runRecordsOf (fetch_page_data attExhaust10
        (fun _ => Except.ok "body") 10 12 1 "pages")).length = 1 := by
  refine ⟨by decide, ?_, ?_⟩
  · rfl
  · rfl

/-- C2 (amended): in every run over [start, end), each page ID contributes
at most one record — exactly one when its first request attempt succeeds
and the response contains the ID (found or missing), and none when its
retries are exhausted or the ID is absent from the response — every
record's ID lies in [start, end), and the accumulated records appear in
strictly ID-ascending order. -/
theorem records_unique_ascending
    (att : Nat → Nat → Except PyError Pages) (c : Nat → Except PyError String)
    (s e m : Nat) (folder : String) :
    ∃ out, fetch_page_data att c s e m folder = Except.ok out ∧
      out.records = (List.range' s (e - s)).flatMap (perPageRecords att c m folder) ∧
      (∀ pid, (perPageRecords att c m folder pid).length ≤ 1) ∧
      (out.records.map PageRecord.pageID).Pairwise (· < ·) ∧
      (∀ r ∈ out.records, s ≤ r.pageID ∧ r.pageID < e) ∧
      (∀ pid pages pd, 1 ≤ m → att pid 0 = Except.ok pages →
        lookupPage pages (toString pid) = some pd →
        (perPageRecords att c m folder pid).length = 1) := by
  obtain ⟨out, hout, hr, hw⟩ := fetch_page_data_ok att c s e m folder
  refine ⟨out, hout, hr, fun pid => perPageRecords_len att c m folder pid, ?_, ?_, ?_⟩
  · rw [hr]
    exact pairwise_flatMap_records _
      (fun pid r hm => perPageRecords_pageID att c m folder pid r hm)
      (fun pid => perPageRecords_len att c m folder pid)
      _ (List.pairwise_lt_range' s (e - s))
  · intro r hrm
    rw [hr] at hrm
    obtain ⟨pid, hpid, hrp⟩ := List.mem_flatMap.1 hrm
    rw [perPageRecords_pageID att c m folder pid r hrp]
    have hb := List.mem_range'_1.1 hpid
    omega
  · intro pid pages pd hm h0 hl
    obtain ⟨n, hn⟩ : ∃ n, m = n + 1 := ⟨m - 1, by omega⟩
    subst hn
    have h1 : perPageRecords att c (n + 1) folder pid =
        (handleSuccess pages pid (c pid) folder).1 := by
      simp [perPageRecords, processPage, metaRetryLoop, h0, runRecordsOf]
    rw [h1]
    unfold handleSuccess
    rw [hl]
    by_cases hm2 : pd.missing
    · simp [hm2]
    · simp [hm2]

/-- Witness for the amended C2 at a concrete environment: ID 11 is found
on the first attempt, so it contributes exactly one record. -/
theorem records_unique_ascending_witness :
    (perPageRecords attExhaust10 (fun _ => Except.ok "body") 1 "pages" 11).length = 1 := by
  obtain ⟨out, h1, h2, h3, h4, h5, h6⟩ :=
    records_unique_ascending attExhaust10 (fun _ => Except.ok "body") 10 12 1 "pages"
  exact h6 11 [("11", ⟨false, some "T", some []⟩)] ⟨false, some "T", some []⟩
    (by decide) rfl rfl

/-- Environment for the C3 counterexample: every request succeeds and the
response marks the page as missing. -/
def attMissing5 : Nat → Nat → Except PyError Pages :=
  fun _ _ => Except.ok [("5", ⟨true, none, none⟩)]

/-- C3 counterexample: over [5, 6) where the only page in range is
missing, the accumulated sequence is NOT empty — the missing page appended
a zero-revision record — and `save_to_csv` therefore DOES write the table
file. -/
theorem empty_result_claim_fails :
    runRecordsOf (fetch_page_data attMissing5
        (fun _ => Except.ok "x") 5 6 1 "pages") = [⟨5, "", 0⟩] ∧
    (save_to_csv (runRecordsOf (fetch_page_data attMissing5
        (fun _ => Except.ok "x") 5 6 1 "pages")) "output.csv").1 =
      [("output.csv", csvContent [⟨5, "", 0⟩])] :=
  ⟨rfl, rfl⟩

/-- C3 (amended): if every ID in [start, end) fails at the transport level
or is absent from every successful response (a page carrying the "missing"
marker is excluded: it does produce a record), the accumulated sequence is
empty at end of run, the CSV export is skipped, a warning is logged, the
filesystem is left untouched, and the run still returns normally. -/
theorem empty_run_skips_export
    (att : Nat → Nat → Except PyError Pages) (c : Nat → Except PyError String)
    (s e m : Nat) (folder fn : String) (fs0 : FS)
    (h : ∀ pid, s ≤ pid → pid < e → ∀ i pages, att pid i = Except.ok pages →
      lookupPage pages (toString pid) = none) :
    ∃ lg, mainRun att c s e m folder fn fs0 = Except.ok (fs0, lg, []) ∧
      LogEvent.noDataWarning ∈ lg := by
  obtain ⟨out, hout, hr, hw⟩ := fetch_page_data_ok att c s e m folder
  have hpp : ∀ pid ∈ List.range' s (e - s),
      perPageRecords att c m folder pid = [] ∧
      perPageWrites att c m folder pid = [] := by
    intro pid hpid
    have hb := List.mem_range'_1.1 hpid
    have hlt : pid < e := by omega
    exact perPage_noLookup att c m folder pid (h pid hb.1 hlt)
  have hrecs : out.records = [] := by
    rw [hr]
    exact flatMap_nil_of_forall _ _ (fun pid hp => (hpp pid hp).1)
  have hwrites : out.writes = [] := by
    rw [hw]
    exact flatMap_nil_of_forall _ _ (fun pid hp => (hpp pid hp).2)
  refine ⟨out.log ++ [LogEvent.noDataWarning], ?_, by simp⟩
  simp [mainRun, hout, hrecs, hwrites, save_to_csv, applyWrites]

/-- Witness for the amended C3: every response parses but contains no
page entry, so nothing is collected and no table is written. -/
theorem empty_run_skips_export_witness :
    ∃ lg, mainRun (fun _ _ => Except.ok []) (fun _ => Except.ok "x")
        1 3 2 "pages" "output.csv" [] = Except.ok ([], lg, []) ∧
      LogEvent.noDataWarning ∈ lg := by
  exact empty_run_skips_export (fun _ _ => Except.ok []) (fun _ => Except.ok "x")
    1 3 2 "pages" "output.csv" []
    (fun pid _ _ i pages hok => by cases hok; rfl)

/-- Environment for the C4 counterexample: the first attempt's response
body fails to parse, the second succeeds with a found page. -/
def attParseThenOk : Nat → Except PyError Pages :=
  fun i => if i = 0 then Except.error PyError.jsonDecodeError
    else Except.ok [("4", ⟨false, some "T", some [1]⟩)]

/-- C4 counterexample: for an ID whose metadata response body fails to
parse on the first attempt, iteration does NOT continue with the next ID:
the parse failure is retried (`JSONDecodeError` is caught by the
`RequestException` handler), and here the retry succeeds, so a record IS
produced for that ID. -/
theorem parse_failure_is_retried :
    attParseThenOk 0 = Except.error PyError.jsonDecodeError ∧
    runRecordsOf (processPage attParseThenOk (Except.ok "x") 4 2 "pages") =
      [⟨4, "T", 1⟩] :=
  ⟨rfl, rfl⟩

/-- C4 (amended): a malformed response body raises a `JSONDecodeError`,
which the `RequestException` handler catches and retries like a transport
failure; if every attempt for an ID fails to parse, the abandonment is
logged, no record is produced for that ID and iteration continues with the
next ID unchanged; no exception propagates out of per-page processing, so
the run always returns normally. -/
theorem parse_failure_nonfatal
    (att : Nat → Nat → Except PyError Pages) (c : Nat → Except PyError String)
    (s e m : Nat) (folder : String) :
    (∃ out, fetch_page_data att c s e m folder = Except.ok out) ∧
    (∀ pid, 1 ≤ m → (∀ i, att pid i = Except.error PyError.jsonDecodeError) →
      perPageRecords att c m folder pid = [] ∧
      (∃ out, processPage (att pid) (c pid) pid m folder = Except.ok out ∧
        LogEvent.skipAfterRetries pid m ∈ out.log) ∧
      (∀ ids, runRecordsOf (runPages att c m folder (pid :: ids)) =
        runRecordsOf (runPages att c m folder ids))) := by
  constructor
  · obtain ⟨out, hout, _, _⟩ := fetch_page_data_ok att c s e m folder
    exact ⟨out, hout⟩
  · intro pid hm hfail
    have hfail' : ∀ i, ∃ e, att pid i = Except.error e :=
      fun i => ⟨PyError.jsonDecodeError, hfail i⟩
    have hloop := metaRetryLoop_allFail (att pid) (c pid) pid m folder hfail' m 0
    have hpp : processPage (att pid) (c pid) pid m folder =
        Except.ok ⟨[], [], LogEvent.sleep 1 :: failBackoffLog pid m 0 m,
                   failAttempts m 0 m⟩ := by
      rw [processPage, hloop]
    refine ⟨?_, ⟨_, hpp, ?_⟩, ?_⟩
    · simp [perPageRecords, hpp, runRecordsOf]
    · exact List.mem_cons_of_mem _ (failBackoffLog_skip_mem pid m m 0 (by omega) hm)
    · intro ids
      obtain ⟨o2, h2, _, _⟩ := runPages_ok att c m folder ids
      simp [runPages, hpp, h2, appendOut, runRecordsOf]

/-- Witness for the amended C4: all attempts fail to parse, so the ID is
abandoned with a logged skip and contributes no record. -/
theorem parse_failure_nonfatal_witness :
    perPageRecords (fun _ _ => Except.error PyError.jsonDecodeError)
      (fun _ => Except.ok "x") 1 "pages" 0 = [] ∧
    ∃ out, processPage (fun _ => Except.error PyError.jsonDecodeError)
        (Except.ok "x") 0 1 "pages" = Except.ok out ∧
      LogEvent.skipAfterRetries 0 1 ∈ out.log := by
  obtain ⟨h1, h2⟩ := parse_failure_nonfatal
    (fun _ _ => Except.error PyError.jsonDecodeError)
    (fun _ => Except.ok "x") 0 1 1 "pages"
  obtain ⟨hr, hout, _⟩ := h2 0 (by decide) (fun i => rfl)
  exact ⟨hr, hout⟩

/-- C5: for an ID whose page entry carries the "missing" marker, exactly
one record `{pageID, "", 0}` is appended, the content fetcher is not
invoked (no file write, no content event), and the row's revision count
is 0. -/
theorem missing_page_zero_record
    (att : Nat → Except PyError Pages) (c : Except PyError String)
    (pages : Pages) (pd : PageData) (pid m : Nat) (folder : String)
    (hm : 1 ≤ m) (h0 : att 0 = Except.ok pages)
    (hl : lookupPage pages (toString pid) = some pd)
    (hmiss : pd.missing = true) :
    handleSuccess pages pid c folder =
      ([{ pageID := pid, title := "", revisions_count := 0 }], [],
       [LogEvent.missingPage pid]) ∧
    processPage att c pid m folder =
      Except.ok ⟨[{ pageID := pid, title := "", revisions_count := 0 }], [],
        [LogEvent.sleep 1, LogEvent.missingPage pid], 1⟩ := by
  have hhs : handleSuccess pages pid c folder =
      ([{ pageID := pid, title := "", revisions_count := 0 }], [],
       [LogEvent.missingPage pid]) := by
    unfold handleSuccess
    rw [hl]
    simp [hmiss]
  refine ⟨hhs, ?_⟩
  obtain ⟨n, hn⟩ : ∃ n, m = n + 1 := ⟨m - 1, by omega⟩
  subst hn
  simp [processPage, metaRetryLoop, h0, hhs]

/-- Witness for C5 at a concrete missing page. -/
theorem missing_page_zero_record_witness :
    processPage (fun _ => Except.ok [("7", ⟨true, some "X", some [1, 2]⟩)])
        (Except.ok "x") 7 1 "pages" =
      Except.ok ⟨[{ pageID := 7, title := "", revisions_count := 0 }], [],
        [LogEvent.sleep 1, LogEvent.missingPage 7], 1⟩ := by
  obtain ⟨h1, h2⟩ := missing_page_zero_record
    (fun _ => Except.ok [("7", ⟨true, some "X", some [1, 2]⟩)])
    (Except.ok "x") [("7", ⟨true, some "X", some [1, 2]⟩)]
    ⟨true, some "X", some [1, 2]⟩ 7 1 "pages" (by decide) rfl rfl rfl
  exact h2

/-- C6: a successfully fetched raw content for page `pid` is written to
`<output_folder>/<pid / 1000>/<pid>.txt` after ensuring that shard
directory exists (ID 2500 goes to `out/2/2500.txt`, ID 999 to
`out/0/999.txt`), and the write overwrites any pre-existing file at that
path. -/
theorem content_saved_sharded
    (content title : String) (pid : Nat) (folder : String) (fs : FS) :
    save_page_content (Except.ok content) title pid folder =
      ([(contentFilePath folder pid, content)],
       [LogEvent.ensuredDir (shardDir folder pid),
        LogEvent.savedContent pid (contentFilePath folder pid)]) ∧
    contentFilePath "out" 2500 = "out/2/2500.txt" ∧
    contentFilePath "out" 999 = "out/0/999.txt" ∧
    fsRead (fsWrite fs (contentFilePath folder pid) content)
      (contentFilePath folder pid) = some content :=
  ⟨rfl, rfl, rfl, fsRead_fsWrite _ _ fs⟩

/-- C7: when the raw-content fetch for a found page fails at the transport
level, the failure is logged with no retry at the content layer and no
file write, yet the page's record (appended before the content fetch)
stays in the accumulated sequence and is exported by `save_to_csv`. -/
theorem content_failure_keeps_record
    (att : Nat → Except PyError Pages) (err : PyError)
    (pages : Pages) (pd : PageData) (pid m : Nat) (folder : String)
    (hm : 1 ≤ m) (h0 : att 0 = Except.ok pages)
    (hl : lookupPage pages (toString pid) = some pd)
    (hmiss : pd.missing = false) :
    save_page_content (Except.error err) (sanitizeTitle (pd.title.getD ""))
        pid folder =
      ([], [LogEvent.contentFetchFailed (sanitizeTitle (pd.title.getD ""))]) ∧
    processPage att (Except.error err) pid m folder =
      Except.ok ⟨[{ pageID := pid, title := sanitizeTitle (pd.title.getD ""),
                    revisions_count := (pd.revisions.getD []).length }], [],
        [LogEvent.sleep 1, LogEvent.scraped pid,
         LogEvent.contentFetchFailed (sanitizeTitle (pd.title.getD ""))], 1⟩ ∧
    (save_to_csv [{ pageID := pid, title := sanitizeTitle (pd.title.getD ""),
                    revisions_count := (pd.revisions.getD []).length }]
        "output.csv").1 =
      [("output.csv",
        csvContent [{ pageID := pid, title := sanitizeTitle (pd.title.getD ""),
                      revisions_count := (pd.revisions.getD []).length }])] := by
  have hhs : handleSuccess pages pid (Except.error err) folder =
      ([{ pageID := pid, title := sanitizeTitle (pd.title.getD ""),
          revisions_count := (pd.revisions.getD []).length }], [],
       [LogEvent.scraped pid,
        LogEvent.contentFetchFailed (sanitizeTitle (pd.title.getD ""))]) := by
    unfold handleSuccess
    rw [hl]
    simp [hmiss, save_page_content]
  refine ⟨rfl, ?_, rfl⟩
  obtain ⟨n, hn⟩ : ∃ n, m = n + 1 := ⟨m - 1, by omega⟩
  subst hn
  simp [processPage, metaRetryLoop, h0, hhs]

/-- Witness for C7 at a concrete found page whose content fetch fails. -/
theorem content_failure_keeps_record_witness :
    processPage (fun _ => Except.ok [("9", ⟨false, some "T", some [1]⟩)])
        (Except.error PyError.connectionError) 9 1 "pages" =
      Except.ok ⟨[{ pageID := 9, title := "T", revisions_count := 1 }], [],
        [LogEvent.sleep 1, LogEvent.scraped 9,
         LogEvent.contentFetchFailed "T"], 1⟩ := by
  obtain ⟨h1, h2, h3⟩ := content_failure_keeps_record
    (fun _ => Except.ok [("9", ⟨false, some "T", some [1]⟩)])
    PyError.connectionError [("9", ⟨false, some "T", some [1]⟩)]
    ⟨false, some "T", some [1]⟩ 9 1 "pages" (by decide) rfl rfl rfl
  exact h2

/-- C8: the stored title is the API title with every `/` replaced (same
length, no `/` remains, titles without `/` are unchanged, and
`Foo/Bar ↦ Foo_Bar`), the sanitized title is both the one recorded and
the one handed to the content saver, and the raw content written to the
file is not altered by the sanitization. -/
theorem title_sanitized
    (pages : Pages) (pd : PageData) (pid : Nat) (c folder : String) :
    (∀ s : String, (sanitizeTitle s).length = s.length ∧
      ∀ ch ∈ (sanitizeTitle s).data, ch ≠ '/') ∧
    (∀ s : String, (∀ ch ∈ s.data, ch ≠ '/') → sanitizeTitle s = s) ∧
    sanitizeTitle "Foo/Bar" = "Foo_Bar" ∧
    (lookupPage pages (toString pid) = some pd → pd.missing = false →
      handleSuccess pages pid (Except.ok c) folder =
        ([{ pageID := pid, title := sanitizeTitle (pd.title.getD ""),
            revisions_count := (pd.revisions.getD []).length }],
         [(contentFilePath folder pid, c)],
         [LogEvent.scraped pid, LogEvent.ensuredDir (shardDir folder pid),
          LogEvent.savedContent pid (contentFilePath folder pid)])) := by
  refine ⟨fun s => ⟨sanitizeTitle_len s, sanitizeTitle_no_slash s⟩,
          fun s h => sanitizeTitle_id_of_no_slash s h, rfl, ?_⟩
  intro hl hmiss
  unfold handleSuccess
  rw [hl]
  simp [hmiss, save_page_content]

/-- Witness for C8 at a concrete page titled `Foo/Bar`. -/
theorem title_sanitized_witness :
    handleSuccess [("3", ⟨false, some "Foo/Bar", some [5]⟩)] 3
        (Except.ok "raw content") "out" =
      ([{ pageID := 3, title := "Foo_Bar", revisions_count := 1 }],
       [("out/0/3.txt", "raw content")],
       [LogEvent.scraped 3, LogEvent.ensuredDir "out/0",
        LogEvent.savedContent 3 "out/0/3.txt"]) := by
  obtain ⟨h1, h2, h3, h4⟩ := title_sanitized
    [("3", ⟨false, some "Foo/Bar", some [5]⟩)]
    ⟨false, some "Foo/Bar", some [5]⟩ 3 "raw content" "out"
  exact h4 rfl rfl

/-- C9: `download.py` builds each metadata URL independently as the fixed
base plus the single page ID; `download-selenium.py` instead rebinds the
`url` variable each iteration, so from the second iteration onward the
requested URL accumulates the previous IDs — over [5, 7) its second
request goes to base+"56", not base+"6". -/
theorem selenium_url_accumulates :
    requestUrls 5 7 = [metadataUrl 5, metadataUrl 6] ∧
    metadataUrl 5 = BASE_URL ++ "5" ∧
    metadataUrl 6 = BASE_URL ++ "6" ∧
    seleniumUrls BASE_URL 5 7 = [BASE_URL ++ "5", BASE_URL ++ "5" ++ "6"] ∧
    seleniumUrls BASE_URL 5 7 ≠ requestUrls 5 7 := by
  refine ⟨rfl, rfl, rfl, rfl, ?_⟩
  decide

/-- C10: the `download.py` retry loop terminates after at most
`max_retries` request attempts in every environment; the selenium
variant's loop does not have this bound: on persistent JSON parse failures
the inner bare-except `continue` re-enters the loop without incrementing
`retries`, so with `max_retries = 1` the loop is still running after any
number of iterations. -/
theorem retry_loop_termination_contrast :
    (∀ (att : Nat → Except PyError Pages) (c : Except PyError String)
       (pid m : Nat) (folder : String),
      ∃ out, metaRetryLoop att c pid m folder 0 m = Except.ok out ∧
        out.attempts ≤ m) ∧
    (∀ fuel, selRetryLoop (fun _ => SelOutcome.parseFail) 1 0 0 fuel = none) := by
  constructor
  · intro att c pid m folder
    obtain ⟨out, hout, ha, _, _⟩ := metaRetryLoop_ok att c pid m folder m 0
    exact ⟨out, hout, ha⟩
  · have hgen : ∀ fuel idx,
        selRetryLoop (fun _ => SelOutcome.parseFail) 1 0 idx fuel = none := by
      intro fuel
      induction fuel with
      | zero => intro idx; rfl
      | succ n ih => intro idx; simp [selRetryLoop, ih]
    exact fun fuel => hgen fuel 0
